import Mathlib

/-!
Shallow embedding of the Rust Cloudflare Worker template
(`templates/rust-worker.rs`): the user CRUD handlers over the D1 database
binding, the list-pagination parameter handling, and the compute handler.

Modelling conventions:
* The D1 `users` table is a `List User` kept in insertion order
  (`created_at` grows with insertion, so `ORDER BY created_at DESC`
  is the reverse of insertion order).
* Each handler becomes a pure function of its inputs together with the
  current store.  `req.json()` is modelled by an `Option` argument
  (`none` = malformed body).  The nondeterministic inputs of
  `handle_create_user` (`uuid::Uuid::new_v4()`, `chrono::Utc::now()`)
  become explicit arguments.
* Calls into the runtime (obtaining the DB binding, each SQL statement,
  body parsing) are recorded in an event trace so that ordering facts
  ("the existence check runs before the body is parsed") are provable.
* Rust `u32` arithmetic is `Nat` with explicit `% 2^32`; the release
  profile of the template disables overflow checks, so `-` and `*` wrap.
* `f64` is idealised as `ℝ`; the `f64::NEG_INFINITY` / `f64::INFINITY`
  fold seeds become `⊥ : WithBot ℝ` / `⊤ : WithTop ℝ`.
-/

namespace RustWorker

/-! ### Rust string primitives

Modelled structurally over `String.data` so that the kernel can evaluate
them on concrete inputs (the core `String.trim` / `String.toLower` /
`String.contains` go through iterator loops that do not reduce
definitionally). -/

/-- Rust `str::trim`: strip whitespace from both ends. -/
def rustTrim (s : String) : String :=
  ⟨((s.data.dropWhile Char.isWhitespace).reverse.dropWhile
    Char.isWhitespace).reverse⟩

/-- Rust `str::to_lowercase`, restricted to the simple per-character
mapping (full Unicode case folding is not needed by any claim). -/
def rustToLower (s : String) : String := ⟨s.data.map Char.toLower⟩

/-- Rust `str::contains(char)`. -/
def strContains (s : String) (c : Char) : Bool := s.data.any (· == c)

/-- `struct User` (rust-worker.rs lines 97–103). -/
structure User where
  id : String
  name : String
  email : String
  created_at : String
deriving DecidableEq, Repr

/-- `struct CreateUserRequest` (lines 85–89). -/
structure CreateUserRequest where
  name : String
  email : String
deriving DecidableEq, Repr

/-- `struct UpdateUserRequest` (lines 91–95): both fields optional. -/
structure UpdateUserRequest where
  name : Option String
  email : Option String
deriving DecidableEq, Repr

/-- `struct ApiResponse<T>` (lines 105–110).  The Rust error branches use
`ApiResponse::<()>` while success branches use `ApiResponse<T>`; both
serialise to the same JSON shape, so we model them uniformly with
`data = none` on error branches. -/
structure ApiResponse (α : Type) where
  success : Bool
  data : Option α
  error : Option String
deriving DecidableEq, Repr

/-- A `worker::Response` built with `Response::from_json` (status 200 by
default) optionally rewritten by `.with_status`. -/
structure WorkerResponse (α : Type) where
  body : ApiResponse α
  status : Nat
deriving DecidableEq, Repr

/-- `struct PaginatedResponse<T>` (lines 112–118), at `T = User`. -/
structure PaginatedResponse where
  data : List User
  page : Nat
  limit : Nat
  total : Nat
deriving DecidableEq, Repr

/-- Observable calls a handler makes into the runtime, in program order:
body parsing and every use of the D1 binding. -/
inductive Event
  | parseJson
  | dbGetBinding
  | dbSelectById (id : String)
  | dbSelectByEmail (email : String)
  | dbInsert (u : User)
  | dbUpdate (id name email : String)
  | dbDelete (id : String)
deriving DecidableEq, Repr

/-- Outcome of one handler run: the HTTP response, the database state
afterwards, and the trace of runtime calls made. -/
structure HandlerResult (α : Type) where
  response : WorkerResponse α
  store : List User
  events : List Event
deriving DecidableEq, Repr

/-! ### u32 arithmetic and query-parameter parsing (list handler) -/

/-- `2^32`, the modulus of Rust `u32`. -/
def U32LIM : Nat := 4294967296

/-- Wrapping `u32` subtraction (release profile: overflow checks off),
for operands already reduced below `2^32`. -/
def u32sub (a b : Nat) : Nat := (a + (U32LIM - b % U32LIM)) % U32LIM

/-- Wrapping `u32` multiplication. -/
def u32mul (a b : Nat) : Nat := (a * b) % U32LIM

/-- `str::parse::<u32>().ok()`: a non-empty digit string denoting a
value below `2^32`, otherwise `none`.  (Rust also accepts a leading
`+`, not needed here.) -/
def parseU32 (s : String) : Option Nat :=
  if s.data.isEmpty then none
  else if s.data.all Char.isDigit then
    let n := s.data.foldl (fun acc c => acc * 10 + (c.toNat - 48)) 0
    if n < U32LIM then some n else none
  else none

/-- Lines 176–184: `page` from the query (default 1), `limit` from the
query (default 10, then `.min(100)`). -/
def listParams (pageQ limitQ : Option String) : Nat × Nat :=
  ((pageQ.bind parseU32).getD 1,
   min ((limitQ.bind parseU32).getD 10) 100)

/-- Line 185: `let offset = (page - 1) * limit;` in wrapping `u32`
arithmetic. -/
def listOffset (page limit : Nat) : Nat := u32mul (u32sub page 1) limit

/-- The external D1 engine's answer to
`SELECT * FROM users ORDER BY created_at DESC LIMIT ? OFFSET ?`:
rows in reverse insertion order, `OFFSET` dropped, at most `LIMIT`
returned (the SQL contract of the external store). -/
def selectUsersPage (store : List User) (limit offset : Nat) : List User :=
  (store.reverse.drop offset).take limit

/-- `handle_list_users` (lines 172–213).  Returns the
`PaginatedResponse` body together with the HTTP status (always 200:
`Response::from_json` with no `.with_status`). -/
def handle_list_users (store : List User) (pageQ limitQ : Option String) :
    PaginatedResponse × Nat :=
  let page := (listParams pageQ limitQ).1
  let limit := (listParams pageQ limitQ).2
  let offset := listOffset page limit
  ({ data := selectUsersPage store limit offset
     page := page
     limit := limit
     total := store.length }, 200)

/-! ### Create / get / update / delete handlers -/

/-- `handle_create_user` (lines 215–293).  `body = none` models a body
that fails JSON parsing; `newId` and `now` are the values produced by
`uuid::Uuid::new_v4()` and `chrono::Utc::now()`. -/
def handle_create_user (store : List User) (body : Option CreateUserRequest)
    (newId now : String) : HandlerResult User :=
  match body with
  | none =>
      ⟨⟨⟨false, none, some "Invalid JSON body"⟩, 400⟩, store, [.parseJson]⟩
  | some input =>
      if (rustTrim input.name).isEmpty then
        ⟨⟨⟨false, none, some "Name is required"⟩, 400⟩, store, [.parseJson]⟩
      else if !(strContains input.email '@') then
        ⟨⟨⟨false, none, some "Invalid email"⟩, 400⟩, store, [.parseJson]⟩
      else
        match store.find? (fun u => u.email == rustToLower input.email) with
        | some _ =>
            ⟨⟨⟨false, none, some "Email already exists"⟩, 409⟩, store,
              [.parseJson, .dbGetBinding, .dbSelectByEmail (rustToLower input.email)]⟩
        | none =>
            let user : User :=
              ⟨newId, rustTrim input.name, rustToLower input.email, now⟩
            ⟨⟨⟨true, some user, none⟩, 201⟩, store ++ [user],
              [.parseJson, .dbGetBinding, .dbSelectByEmail (rustToLower input.email),
               .dbInsert user]⟩

/-- `handle_get_user` (lines 295–318). -/
def handle_get_user (store : List User) (id : String) : HandlerResult User :=
  match store.find? (fun u => u.id == id) with
  | some u =>
      ⟨⟨⟨true, some u, none⟩, 200⟩, store, [.dbGetBinding, .dbSelectById id]⟩
  | none =>
      ⟨⟨⟨false, none, some "User not found"⟩, 404⟩, store,
        [.dbGetBinding, .dbSelectById id]⟩

/-- Final step of `handle_update_user` (lines 382–392): the single
`UPDATE users SET name = ?, email = ? WHERE id = ?` followed by the
200 success envelope carrying the in-memory entity. -/
def persistUpdate (store : List User) (id : String) (u : User) :
    HandlerResult User :=
  ⟨⟨⟨true, some u, none⟩, 200⟩,
   store.map (fun v =>
     if v.id == id then { v with name := u.name, email := u.email } else v),
   [.dbGetBinding, .dbSelectById id, .parseJson, .dbUpdate id u.name u.email]⟩

/-- The email block of `handle_update_user` (lines 369–379): if an email
is provided, reject it without `'@'` (400), otherwise lower-case and
apply it; then fall through to the persisting UPDATE. -/
def updateEmailStep (store : List User) (id : String) (u1 : User)
    (emailOpt : Option String) : HandlerResult User :=
  match emailOpt with
  | some email =>
      if !(strContains email '@') then
        ⟨⟨⟨false, none, some "Invalid email"⟩, 400⟩, store,
          [.dbGetBinding, .dbSelectById id, .parseJson]⟩
      else
        persistUpdate store id { u1 with email := rustToLower email }
  | none => persistUpdate store id u1

/-- `handle_update_user` (lines 320–392): existence check first (404
before the body is even parsed), then JSON parse (400), then the name
field, then the email field, then one persisting UPDATE. -/
def handle_update_user (store : List User) (id : String)
    (body : Option UpdateUserRequest) : HandlerResult User :=
  match store.find? (fun u => u.id == id) with
  | none =>
      ⟨⟨⟨false, none, some "User not found"⟩, 404⟩, store,
        [.dbGetBinding, .dbSelectById id]⟩
  | some u0 =>
      match body with
      | none =>
          ⟨⟨⟨false, none, some "Invalid JSON body"⟩, 400⟩, store,
            [.dbGetBinding, .dbSelectById id, .parseJson]⟩
      | some input =>
          match input.name with
          | some name =>
              if (rustTrim name).isEmpty then
                ⟨⟨⟨false, none, some "Name cannot be empty"⟩, 400⟩, store,
                  [.dbGetBinding, .dbSelectById id, .parseJson]⟩
              else
                updateEmailStep store id { u0 with name := rustTrim name }
                  input.email
          | none => updateEmailStep store id u0 input.email

/-- `handle_delete_user` (lines 394–418): `DELETE FROM users WHERE
id = ?` runs first; 404 exactly when it affected zero rows. -/
def handle_delete_user (store : List User) (id : String) :
    HandlerResult Unit :=
  let store' := store.filter (fun u => !(u.id == id))
  let changes := store.countP (fun u => u.id == id)
  if changes == 0 then
    ⟨⟨⟨false, none, some "User not found"⟩, 404⟩, store',
      [.dbGetBinding, .dbDelete id]⟩
  else
    ⟨⟨⟨true, none, none⟩, 200⟩, store', [.dbGetBinding, .dbDelete id]⟩

/-! ### Compute handler (pure, no DB access: its `ctx` is unused) -/

/-- `struct ComputeRequest` (lines 507–511); `Vec<f64>` idealised as
`List ℝ`. -/
structure ComputeRequest where
  data : List ℝ
  operation : String

/-- `struct ComputeResult` (lines 513–518). -/
structure ComputeResult where
  result : ℝ
  operation : String
  count : Nat

/-- `handle_compute` (lines 520–576).  The `f64::NEG_INFINITY` and
`f64::INFINITY` fold seeds are `⊥ : WithBot ℝ` and `⊤ : WithTop ℝ`;
since a result is only produced for non-empty data, the fold value is
finite and `unbot' 0` / `untop' 0` recovers it in `ℝ`. -/
noncomputable def handle_compute (body : Option ComputeRequest) :
    WorkerResponse ComputeResult :=
  match body with
  | none => ⟨⟨false, none, some "Invalid JSON"⟩, 400⟩
  | some input =>
      if input.data.isEmpty then
        ⟨⟨false, none, some "Data array is empty"⟩, 400⟩
      else
        let ok : ℝ → WorkerResponse ComputeResult := fun r =>
          ⟨⟨true, some ⟨r, input.operation, input.data.length⟩, none⟩, 200⟩
        match input.operation with
        | "sum" => ok input.data.sum
        | "mean" => ok (input.data.sum / input.data.length)
        | "max" =>
            ok (((input.data.map (fun x => (x : WithBot ℝ))).foldl max
              ⊥).unbot' 0)
        | "min" =>
            ok (((input.data.map (fun x => (x : WithTop ℝ))).foldl min
              ⊤).untop' 0)
        | "std" =>
            let mean : ℝ := input.data.sum / input.data.length
            let variance : ℝ :=
              (input.data.map (fun x => (x - mean) ^ 2)).sum /
                input.data.length
            ok (Real.sqrt variance)
        | op => ⟨⟨false, none, some ("Unknown operation: " ++ op)⟩, 400⟩

/-- Second definition for the refinement claim about the compute
results, following the spec's operation table word for word
(§4.7: sum = Σ data; mean = Σ data / count; max = fold with running
maximum seeded at −∞; min = fold with running minimum seeded at +∞;
std = population standard deviation sqrt(Σ(x−mean)²/count));
`none` for an operation outside the table. -/
noncomputable def specComputeResult (data : List ℝ) (op : String) :
    Option ℝ :=
  match op with
  | "sum" => some data.sum
  | "mean" => some (data.sum / data.length)
  | "max" =>
      some (((data.map (fun x => (x : WithBot ℝ))).foldl max ⊥).unbot' 0)
  | "min" =>
      some (((data.map (fun x => (x : WithTop ℝ))).foldl min ⊤).untop' 0)
  | "std" =>
      some (Real.sqrt
        (((data.map (fun x => (x - data.sum / data.length) ^ 2)).sum /
          data.length : ℝ)))
  | _ => none

/-! ### The envelope invariant -/

/-- The spec's envelope invariant: success implies no error message,
failure implies no data. -/
def envInv {α : Type} (r : ApiResponse α) : Prop :=
  (r.success = true → r.error = none) ∧ (r.success = false → r.data = none)

theorem envInv_err {α : Type} (msg : String) :
    envInv (⟨false, none, some msg⟩ : ApiResponse α) := by
  constructor <;> intro h <;> simp_all [envInv]

theorem envInv_ok {α : Type} (d : Option α) :
    envInv (⟨true, d, none⟩ : ApiResponse α) := by
  constructor <;> intro h <;> simp_all [envInv]

/-! ### Theorems -/

/-- C1: an update-user request whose path id matches no stored user gets
the 404 "User not found" envelope whatever the body is (well-formed,
malformed, anything): the store is untouched and the event trace stops
at the existence lookup — the body is never parsed, so a malformed body
on a nonexistent id yields 404, never 400. -/
theorem update_nonexistent_id_404 (store : List User) (id : String)
    (body : Option UpdateUserRequest)
    (h : store.find? (fun u => u.id == id) = none) :
    (handle_update_user store id body).response.status = 404 ∧
    (handle_update_user store id body).response.body =
      ⟨false, none, some "User not found"⟩ ∧
    (handle_update_user store id body).store = store ∧
    (handle_update_user store id body).events =
      [.dbGetBinding, .dbSelectById id] ∧
    Event.parseJson ∉ (handle_update_user store id body).events := by
  unfold handle_update_user
  rw [h]
  refine ⟨rfl, rfl, rfl, rfl, ?_⟩
  simp

theorem update_nonexistent_id_404_witness :
    (handle_update_user [] "u1" none).response.status = 404 ∧
    (handle_update_user [] "u1" none).response.body =
      ⟨false, none, some "User not found"⟩ ∧
    (handle_update_user [] "u1" none).store = [] ∧
    (handle_update_user [] "u1" none).events =
      [.dbGetBinding, .dbSelectById "u1"] ∧
    Event.parseJson ∉ (handle_update_user [] "u1" none).events :=
  update_nonexistent_id_404 [] "u1" none rfl

/-- C2: every ApiResponse envelope any handler constructs satisfies the
invariant: success implies no error message, failure implies no data.
(The envelope-returning handlers are create, get, update, delete and
compute; list returns a bare PaginatedResponse and the cache/file/index
routes return plain text.) -/
theorem handlers_envelope_invariant (store : List User)
    (id newId now : String) (cbody : Option CreateUserRequest)
    (ubody : Option UpdateUserRequest) (kbody : Option ComputeRequest) :
    envInv (handle_create_user store cbody newId now).response.body ∧
    envInv (handle_get_user store id).response.body ∧
    envInv (handle_update_user store id ubody).response.body ∧
    envInv (handle_delete_user store id).response.body ∧
    envInv (handle_compute kbody).body := by
  refine ⟨?_, ?_, ?_, ?_, ?_⟩
  · unfold handle_create_user
    try dsimp only
    repeat' split
    all_goals first | exact envInv_err _ | exact envInv_ok _
  · unfold handle_get_user
    try dsimp only
    repeat' split
    all_goals first | exact envInv_err _ | exact envInv_ok _
  · unfold handle_update_user updateEmailStep persistUpdate
    try dsimp only
    repeat' split
    all_goals first | exact envInv_err _ | exact envInv_ok _
  · unfold handle_delete_user
    try dsimp only
    repeat' split
    all_goals first | exact envInv_err _ | exact envInv_ok _
  · unfold handle_compute
    try dsimp only
    repeat' split
    all_goals first | exact envInv_err _ | exact envInv_ok _

theorem handlers_envelope_invariant_witness :
    envInv (handle_create_user [] none "1" "t1").response.body ∧
    envInv (handle_get_user [] "u1").response.body ∧
    envInv (handle_update_user [] "u1" none).response.body ∧
    envInv (handle_delete_user [] "u1").response.body ∧
    envInv (handle_compute none).body :=
  handlers_envelope_invariant [] "u1" "1" "t1" none none none

/-- C3: a create-user request whose body parses and passes both
validations, but whose lower-cased email already appears in the store,
gets the 409 "Email already exists" envelope; the store is unchanged and
the trace ends at the uniqueness lookup — no insert is ever issued. -/
theorem create_duplicate_email_409 (store : List User)
    (input : CreateUserRequest) (newId now : String)
    (hname : (rustTrim input.name).isEmpty = false)
    (hemail : strContains input.email '@' = true)
    (hdup : ∃ u, store.find? (fun v => v.email == rustToLower input.email) =
      some u) :
    (handle_create_user store (some input) newId now).response.status =
      409 ∧
    (handle_create_user store (some input) newId now).response.body =
      ⟨false, none, some "Email already exists"⟩ ∧
    (handle_create_user store (some input) newId now).store = store ∧
    (handle_create_user store (some input) newId now).events =
      [.parseJson, .dbGetBinding, .dbSelectByEmail (rustToLower input.email)] ∧
    ∀ u, Event.dbInsert u ∉
      (handle_create_user store (some input) newId now).events := by
  obtain ⟨u, hu⟩ := hdup
  unfold handle_create_user
  simp [hname, hemail, hu]

theorem create_duplicate_email_409_witness :
    (handle_create_user [⟨"0", "Ann", "a@b.c", "t0"⟩]
        (some ⟨"Bob", "A@B.C"⟩) "1" "t1").response.status = 409 ∧
    (handle_create_user [⟨"0", "Ann", "a@b.c", "t0"⟩]
        (some ⟨"Bob", "A@B.C"⟩) "1" "t1").response.body =
      ⟨false, none, some "Email already exists"⟩ ∧
    (handle_create_user [⟨"0", "Ann", "a@b.c", "t0"⟩]
        (some ⟨"Bob", "A@B.C"⟩) "1" "t1").store =
      [⟨"0", "Ann", "a@b.c", "t0"⟩] ∧
    (handle_create_user [⟨"0", "Ann", "a@b.c", "t0"⟩]
        (some ⟨"Bob", "A@B.C"⟩) "1" "t1").events =
      [.parseJson, .dbGetBinding, .dbSelectByEmail (rustToLower "A@B.C")] ∧
    ∀ u, Event.dbInsert u ∉
      (handle_create_user [⟨"0", "Ann", "a@b.c", "t0"⟩]
        (some ⟨"Bob", "A@B.C"⟩) "1" "t1").events :=
  create_duplicate_email_409 [⟨"0", "Ann", "a@b.c", "t0"⟩]
    ⟨"Bob", "A@B.C"⟩ "1" "t1" rfl rfl ⟨⟨"0", "Ann", "a@b.c", "t0"⟩, rfl⟩

/-- C4: an update-user request on an existing user whose provided fields
do not all validate (a provided name that is whitespace-only, or — with
any provided name valid — a provided email without an at sign) gets a
400 envelope, the store is unchanged, and no UPDATE statement appears in
the trace: the single persisting write happens only after every provided
field has passed. -/
theorem update_invalid_field_400 (store : List User) (id : String)
    (input : UpdateUserRequest) (u : User)
    (hfound : store.find? (fun v => v.id == id) = some u)
    (hbad : (∃ n, input.name = some n ∧ (rustTrim n).isEmpty = true) ∨
      ((∀ n, input.name = some n → (rustTrim n).isEmpty = false) ∧
        ∃ e, input.email = some e ∧ strContains e '@' = false)) :
    (handle_update_user store id (some input)).response.status = 400 ∧
    (handle_update_user store id (some input)).response.body.success =
      false ∧
    (handle_update_user store id (some input)).store = store ∧
    ∀ i n em, Event.dbUpdate i n em ∉
      (handle_update_user store id (some input)).events := by
  unfold handle_update_user updateEmailStep
  rcases hbad with ⟨n, hn, hbadn⟩ | ⟨hgoodn, e, he, hbade⟩
  · simp [hfound, hn, hbadn]
  · rcases hname : input.name with _ | n
    · simp [hfound, hname, he, hbade]
    · have hn := hgoodn n hname
      simp [hfound, hname, hn, he, hbade]

theorem update_invalid_field_400_witness :
    (handle_update_user [⟨"1", "Ann", "a@b.c", "t0"⟩] "1"
        (some ⟨some " ", none⟩)).response.status = 400 ∧
    (handle_update_user [⟨"1", "Ann", "a@b.c", "t0"⟩] "1"
        (some ⟨some " ", none⟩)).response.body.success = false ∧
    (handle_update_user [⟨"1", "Ann", "a@b.c", "t0"⟩] "1"
        (some ⟨some " ", none⟩)).store = [⟨"1", "Ann", "a@b.c", "t0"⟩] ∧
    ∀ i n em, Event.dbUpdate i n em ∉
      (handle_update_user [⟨"1", "Ann", "a@b.c", "t0"⟩] "1"
        (some ⟨some " ", none⟩)).events :=
  update_invalid_field_400 [⟨"1", "Ann", "a@b.c", "t0"⟩] "1"
    ⟨some " ", none⟩ ⟨"1", "Ann", "a@b.c", "t0"⟩ rfl
    (Or.inl ⟨" ", rfl, rfl⟩)

/-- C9: a create-user request with a whitespace-only name gets the 400
"Name is required" envelope, and one whose name passes but whose email
lacks an at sign gets the 400 "Invalid email" envelope; in both cases
the trace holds only the body parse — the database binding is never
obtained and no query is issued, so the store is unchanged. -/
theorem create_invalid_input_400 (store : List User)
    (input : CreateUserRequest) (newId now : String)
    (hbad : (rustTrim input.name).isEmpty = true ∨
      ((rustTrim input.name).isEmpty = false ∧
        strContains input.email '@' = false)) :
    (handle_create_user store (some input) newId now).response.status =
      400 ∧
    (handle_create_user store (some input) newId now).response.body =
      ⟨false, none,
        some (if (rustTrim input.name).isEmpty then "Name is required"
          else "Invalid email")⟩ ∧
    (handle_create_user store (some input) newId now).events =
      [.parseJson] ∧
    (handle_create_user store (some input) newId now).store = store := by
  unfold handle_create_user
  rcases hbad with hn | ⟨hn, he⟩
  · simp [hn]
  · simp [hn, he]

theorem create_invalid_input_400_witness :
    (handle_create_user [] (some ⟨" ", "x@y.z"⟩) "1" "t1").response.status
      = 400 ∧
    (handle_create_user [] (some ⟨" ", "x@y.z"⟩) "1" "t1").response.body =
      ⟨false, none,
        some (if (rustTrim " ").isEmpty then "Name is required"
          else "Invalid email")⟩ ∧
    (handle_create_user [] (some ⟨" ", "x@y.z"⟩) "1" "t1").events =
      [.parseJson] ∧
    (handle_create_user [] (some ⟨" ", "x@y.z"⟩) "1" "t1").store = [] :=
  create_invalid_input_400 [] ⟨" ", "x@y.z"⟩ "1" "t1" (Or.inl rfl)

/-- C10: the update handler never checks email uniqueness, so a
successful update can leave two distinct users with the same email:
updating user 1's email to "BOB@X.COM" (lower-cased to "bob@x.com")
succeeds with 200 even though user 2 already holds "bob@x.com". -/
theorem update_breaks_email_uniqueness :
    (handle_update_user
        [⟨"1", "Alice", "alice@x.com", "t1"⟩,
         ⟨"2", "Bob", "bob@x.com", "t2"⟩]
        "1" (some ⟨none, some "BOB@X.COM"⟩)).response.body.success =
      true ∧
    (handle_update_user
        [⟨"1", "Alice", "alice@x.com", "t1"⟩,
         ⟨"2", "Bob", "bob@x.com", "t2"⟩]
        "1" (some ⟨none, some "BOB@X.COM"⟩)).response.status = 200 ∧
    (handle_update_user
        [⟨"1", "Alice", "alice@x.com", "t1"⟩,
         ⟨"2", "Bob", "bob@x.com", "t2"⟩]
        "1" (some ⟨none, some "BOB@X.COM"⟩)).store =
      [⟨"1", "Alice", "bob@x.com", "t1"⟩,
       ⟨"2", "Bob", "bob@x.com", "t2"⟩] ∧
    ∃ u ∈ (handle_update_user
        [⟨"1", "Alice", "alice@x.com", "t1"⟩,
         ⟨"2", "Bob", "bob@x.com", "t2"⟩]
        "1" (some ⟨none, some "BOB@X.COM"⟩)).store,
      ∃ v ∈ (handle_update_user
        [⟨"1", "Alice", "alice@x.com", "t1"⟩,
         ⟨"2", "Bob", "bob@x.com", "t2"⟩]
        "1" (some ⟨none, some "BOB@X.COM"⟩)).store,
        u.id ≠ v.id ∧ u.email = v.email := by
  decide

theorem parseU32_lt (s : String) (n : Nat) (h : parseU32 s = some n) :
    n < U32LIM := by
  unfold parseU32 at h
  split at h
  · exact absurd h (by simp)
  · split at h
    · dsimp only at h
      split at h
      · cases h
        assumption
      · exact absurd h (by simp)
    · exact absurd h (by simp)

theorem listParams_page_lt (pageQ limitQ : Option String) :
    (listParams pageQ limitQ).1 < U32LIM := by
  unfold listParams
  cases pageQ with
  | none => norm_num [U32LIM]
  | some s =>
      cases hp : parseU32 s with
      | none => simp [hp]; norm_num [U32LIM]
      | some n => simpa [hp] using parseU32_lt s n hp

/-- C5 (amended): page defaults to 1 and limit to 10 when the query
parameter is missing or non-numeric (the handler always answers 200, no
400), limit is clamped to at most 100, the returned data never exceeds
limit items, and for page ≥ 1 whenever the mathematical product
(page−1)·limit stays below 2^32 the computed u32 offset equals
(page−1)·limit (above 2^32 the u32 multiplication wraps, see the
counterexample). -/
theorem list_users_pagination (store : List User)
    (pageQ limitQ : Option String) :
    (pageQ.bind parseU32 = none → (listParams pageQ limitQ).1 = 1) ∧
    (limitQ.bind parseU32 = none → (listParams pageQ limitQ).2 = 10) ∧
    (listParams pageQ limitQ).2 ≤ 100 ∧
    (handle_list_users store pageQ limitQ).1.data.length ≤
      (listParams pageQ limitQ).2 ∧
    (handle_list_users store pageQ limitQ).2 = 200 ∧
    (1 ≤ (listParams pageQ limitQ).1 →
      ((listParams pageQ limitQ).1 - 1) * (listParams pageQ limitQ).2 <
        U32LIM →
      listOffset (listParams pageQ limitQ).1 (listParams pageQ limitQ).2 =
        ((listParams pageQ limitQ).1 - 1) * (listParams pageQ limitQ).2) := by
  refine ⟨?_, ?_, ?_, ?_, rfl, ?_⟩
  · intro h
    simp [listParams, h]
  · intro h
    simp [listParams, h]
  · exact min_le_right _ _
  · simp only [handle_list_users, selectUsersPage]
    rw [List.length_take]
    exact min_le_left _ _
  · intro h1 hlt
    have hp := listParams_page_lt pageQ limitQ
    unfold listOffset u32mul u32sub U32LIM at *
    have hsub : ((listParams pageQ limitQ).1 +
        (4294967296 - 1 % 4294967296)) % 4294967296 =
        (listParams pageQ limitQ).1 - 1 := by
      omega
    rw [hsub]
    omega

theorem list_users_pagination_witness :
    ((some "3" : Option String).bind parseU32 = none →
      (listParams (some "3") none).1 = 1) ∧
    ((none : Option String).bind parseU32 = none →
      (listParams (some "3") none).2 = 10) ∧
    (listParams (some "3") none).2 ≤ 100 ∧
    (handle_list_users [] (some "3") none).1.data.length ≤
      (listParams (some "3") none).2 ∧
    (handle_list_users [] (some "3") none).2 = 200 ∧
    (1 ≤ (listParams (some "3") none).1 →
      ((listParams (some "3") none).1 - 1) * (listParams (some "3") none).2 <
        U32LIM →
      listOffset (listParams (some "3") none).1
          (listParams (some "3") none).2 =
        ((listParams (some "3") none).1 - 1) *
          (listParams (some "3") none).2) :=
  list_users_pagination [] (some "3") none

/-- C5 counterexample: page "4294967295" is a valid u32 and limit 10 is
in [1,100], yet the computed u32 offset is not (page−1)·limit — the
multiplication (4294967294·10) wraps modulo 2^32. -/
theorem list_offset_overflow :
    listParams (some "4294967295") (some "10") = (4294967295, 10) ∧
    1 ≤ 4294967295 ∧ 1 ≤ 10 ∧ 10 ≤ 100 ∧
    listOffset 4294967295 10 ≠ (4294967295 - 1) * 10 := by
  refine ⟨by decide, by decide, by decide, by decide, by decide⟩

/-- C6: the query value "0" parses as a valid u32, so the non-numeric
fallback does not apply and page becomes 0; with no guard requiring
page ≥ 1, the u32 subtraction page−1 underflows to u32::MAX
(4294967295): the mathematical value page−1 is negative and the
computed offset cannot equal any (page−1)·limit. -/
theorem list_page_zero_underflow :
    (listParams (some "0") (some "10")).1 = 0 ∧
    u32sub 0 1 = 4294967295 ∧
    listOffset 0 10 = 4294967286 ∧
    ((0 : ℤ) - 1) * 10 < 0 ∧
    (listOffset 0 10 : ℤ) ≠ ((0 : ℤ) - 1) * 10 := by
  refine ⟨by decide, by decide, by decide, by decide, by decide⟩

/-- C7: when a compute body parses, an empty data array yields the 400
"Data array is empty" envelope whatever the operation string is (the
emptiness check precedes the dispatch), and a non-empty array with an
operation outside sum/mean/max/min/std yields a 400 envelope whose
message names the unrecognized operation. -/
theorem compute_empty_or_unknown_400 (d : List ℝ) (op : String)
    (h : d.isEmpty = true ∨ (d.isEmpty = false ∧
      op ∉ (["sum", "mean", "max", "min", "std"] : List String))) :
    (handle_compute (some ⟨d, op⟩)).status = 400 ∧
    (handle_compute (some ⟨d, op⟩)).body.success = false ∧
    (handle_compute (some ⟨d, op⟩)).body.data = none ∧
    (handle_compute (some ⟨d, op⟩)).body.error =
      some (if d.isEmpty then "Data array is empty"
        else "Unknown operation: " ++ op) := by
  unfold handle_compute
  rcases h with h | ⟨h1, h2⟩
  · simp [h]
  · simp only [h1, Bool.false_eq_true, if_false]
    split <;> simp_all

theorem compute_empty_or_unknown_400_witness :
    (handle_compute (some ⟨([] : List ℝ), "sum"⟩)).status = 400 ∧
    (handle_compute (some ⟨([] : List ℝ), "sum"⟩)).body.success = false ∧
    (handle_compute (some ⟨([] : List ℝ), "sum"⟩)).body.data = none ∧
    (handle_compute (some ⟨([] : List ℝ), "sum"⟩)).body.error =
      some (if ([] : List ℝ).isEmpty then "Data array is empty"
        else "Unknown operation: " ++ "sum") :=
  compute_empty_or_unknown_400 [] "sum" (Or.inl rfl)

/-- C8: on non-empty data and a supported operation, the compute handler
answers the success envelope (status 200) whose result is exactly the
spec's formula for that operation — sum, sum/count, the fold with
running maximum seeded at −∞, the fold with running minimum seeded at
+∞, or the population standard deviation sqrt(Σ(x−mean)²/count) — with
the operation echoed and count the input length. -/
theorem compute_supported_result (d : List ℝ) (op : String) (r : ℝ)
    (hne : d ≠ [])
    (hspec : specComputeResult d op = some r) :
    handle_compute (some ⟨d, op⟩) =
      ⟨⟨true, some ⟨r, op, d.length⟩, none⟩, 200⟩ := by
  have hempty : d.isEmpty = false := by
    cases d with
    | nil => exact absurd rfl hne
    | cons a l => rfl
  unfold specComputeResult at hspec
  unfold handle_compute
  simp only [hempty, Bool.false_eq_true, if_false]
  split at hspec <;> simp_all

theorem compute_supported_result_witness :
    handle_compute (some ⟨[(1 : ℝ), 2, 3], "sum"⟩) =
      ⟨⟨true, some ⟨([(1 : ℝ), 2, 3]).sum, "sum", 3⟩, none⟩, 200⟩ :=
  compute_supported_result [1, 2, 3] "sum" ([(1 : ℝ), 2, 3]).sum
    (by simp) rfl

end RustWorker
